import Mathlib

/-!
Verification of the dns300 DNS forwarding proxy core: the device-based
routing table (`device.Manager`), the concurrent multi-upstream exchange
engine (`upstream.Client.Exchange`), its DoH transport adapter
(`queryDoH`), and the request router (`server.Server.ServeDNS`).

The Go code is shallowly embedded as follows.

* DNS messages (`miekg/dns.Msg`) keep only the header fields the program
  touches: the 16-bit transaction identifier `Id`, the response code
  `Rcode`, and the `Response` flag.
* Network I/O is an oracle: a function from the attempt the program makes
  (which adapter, which address/URL, which TLS mode) to the result the
  network delivers.
* The goroutine race inside `Exchange` is modelled by an event trace: the
  order in which the receiving loop observes result deliveries, the
  channel close performed by the supervisory goroutine after
  `wg.Wait()`, and the caller's context cancellation.  The loop
  (`for { select { ... } }`) is a structural recursion over that trace.
* `net.ParseIP` / `net.IP.String` (standard library) are abstracted as a
  parameter `parse : String → Option String` producing the canonical
  string form of an IP address, `none` when parsing fails (`nil` IP).
-/

namespace DNS300

/-- The fields of `dns.Msg` that the router and engine read or write:
`Id` (transaction identifier), `Rcode`, and the `Response` header bit. -/
structure DnsMsg where
  id : Nat
  rcode : Nat
  response : Bool
  deriving Repr, DecidableEq

/-- Errors produced by a single upstream attempt (one adapter call). -/
inductive UpstreamError where
  /-- `req.Pack()` failed in `queryDoH`. -/
  | packFailure
  /-- Network/TLS failure from `client.Do` or `client.ExchangeContext`. -/
  | transportFailure (info : String)
  /-- `queryDoH`: `fmt.Errorf("DoH server returned status: %d", ...)`. -/
  | statusFailure (code : Nat)
  /-- Reading the DoH response body (`io.ReadAll`) failed. -/
  | readFailure (info : String)
  /-- `msg.Unpack(body)` failed in `queryDoH`. -/
  | unpackFailure
  deriving Repr, DecidableEq

/-- Errors returned by `Exchange` itself. -/
inductive ExchangeError where
  /-- `fmt.Errorf("no upstreams provided")`, empty upstream list. -/
  | noUpstreams
  /-- `return nil, lastErr`: the last error observed among attempts. -/
  | attemptError (e : UpstreamError)
  /-- `fmt.Errorf("all upstreams failed")`: no attempt set an error. -/
  | allUpstreamsFailed
  /-- `return nil, ctx.Err()`: the caller's context ended first. -/
  | contextCanceled
  deriving Repr, DecidableEq

/-- Upstream identifier shape test, from `Exchange`:
`strings.HasPrefix(u, "https://") || strings.HasPrefix(u, "http://")`.
Go strings are byte sequences and `strings.HasPrefix` is the
prefix-of-sequence test, embedded here on the character sequence
`String.data`. -/
def isDoH (u : String) : Bool :=
  "https://".data.isPrefixOf u.data || "http://".data.isPrefixOf u.data

/-- One adapter invocation: which transport, at which address/URL, and
(for DoH) in which TLS-verification mode. -/
inductive AttemptCall where
  | doh (url : String) (tlsVerify : Bool)
  | classic (addr : String)
  deriving Repr, DecidableEq

/-- The caller-owned data `Exchange` receives by reference: the contents
of the `upstreams` slice and of the query message `req`.  Threaded
through the engine explicitly so that non-mutation is a theorem about
the embedding, not an artifact of purity. -/
structure CallerState where
  upstreams : List String
  query : DnsMsg
  deriving Repr, DecidableEq

/-- The body of one goroutine of `Exchange`'s spawn loop, up to the
adapter call: picks DoH for `http(s)://` identifiers, otherwise
normalizes the local copy `u` (appending `":53"` when `u` contains no
`':'` — `strings.Contains(u, ":")`, embedded on the character sequence)
and picks the classic adapter.  The caller state is threaded through
unchanged because the body only reads its loop-local copy. -/
def spawnOne (tlsVerify : Bool) (st : CallerState) (u : String) :
    AttemptCall × CallerState :=
  if isDoH u then
    (.doh u tlsVerify, st)
  else
    let u := if u.data.contains ':' then u else u ++ ":53"
    (.classic u, st)

/-- The spawn loop `for _, u := range upstreams`, emitting one adapter
invocation per identifier; the caller state produced by one iteration is
the state the next iteration reads. -/
def spawnAll (tlsVerify : Bool) : CallerState → List String → List AttemptCall × CallerState
  | st, [] => ([], st)
  | st, u :: us =>
    let r := spawnOne tlsVerify st u
    let rest := spawnAll tlsVerify r.2 us
    (r.1 :: rest.1, rest.2)

/-- What one goroutine sends on `resultChan`: the `result` struct of
`Exchange` (`msg *dns.Msg`, `err error`). -/
structure AttemptResult where
  msg : Option DnsMsg
  err : Option UpstreamError
  deriving Repr, DecidableEq

/-- The success test of the receiving loop:
`res.err == nil && res.msg != nil`. -/
def isSuccess (r : AttemptResult) : Bool :=
  r.err.isNone && r.msg.isSome

/-- One event observed by `Exchange`'s receiving loop. -/
inductive ExchangeEvent where
  /-- A result arrives on `resultChan`. -/
  | deliver (r : AttemptResult)
  /-- `resultChan` is closed by the supervisory goroutine after
  `wg.Wait()`: every attempt has finished. -/
  | chanClosed
  /-- The caller's context is done (`<-ctx.Done()`). -/
  | ctxDone
  deriving Repr, DecidableEq

/-- The receiving loop of `Exchange` (`for { select { ... } }`),
consuming events in the order the scheduler delivers them and carrying
`lastErr`.  Returns `none` when the trace ends before the loop would
return (the loop is still blocked). -/
def exchangeLoop : List ExchangeEvent → Option UpstreamError → Option (Except ExchangeError DnsMsg)
  | [], _ => none
  | .deliver r :: rest, lastErr =>
    match r.msg, r.err with
    | some m, none => some (.ok m)
    | _, _ => exchangeLoop rest (if r.err.isSome then r.err else lastErr)
  | .chanClosed :: _, lastErr =>
    match lastErr with
    | some e => some (.error (.attemptError e))
    | none => some (.error .allUpstreamsFailed)
  | .ctxDone :: _, _ => some (.error .contextCanceled)

/-- Everything observable about one `Exchange` call in the model: the
value returned, whether the per-call `cancel()` was signalled (the
`defer cancel()` runs whenever the function returns after creating the
child context), which adapter invocations were spawned, and the
caller-owned data as the call leaves it. -/
structure ExchangeReturn where
  outcome : Except ExchangeError DnsMsg
  cancelSignaled : Bool
  attemptsMade : List AttemptCall
  upstreamsAfter : List String
  queryAfter : DnsMsg
  deriving Repr

/-- `upstream.Client.Exchange`, embedded over an event trace.  The empty
list short-circuits before any context or goroutine is created; otherwise
the spawn loop emits one attempt per identifier and the receiving loop
consumes the trace.  `none` means the trace ended with the loop still
blocked. -/
def Exchange (req : DnsMsg) (upstreams : List String) (tlsVerify : Bool)
    (trace : List ExchangeEvent) : Option ExchangeReturn :=
  if upstreams.length = 0 then
    some { outcome := .error .noUpstreams, cancelSignaled := false,
           attemptsMade := [], upstreamsAfter := upstreams, queryAfter := req }
  else
    let st : CallerState := { upstreams := upstreams, query := req }
    let (attempts, st') := spawnAll tlsVerify st st.upstreams
    (exchangeLoop trace none).map fun o =>
      { outcome := o, cancelSignaled := true, attemptsMade := attempts,
        upstreamsAfter := st'.upstreams, queryAfter := st'.query }

/-- The network oracle: what the network answers to each adapter
invocation within one `Exchange` call. -/
def Net : Type := AttemptCall → AttemptResult

/-- The results the spawned goroutines of `Exchange req upstreams
tlsVerify` would send, one per upstream, under network oracle `net`. -/
def attemptResults (net : Net) (req : DnsMsg) (tlsVerify : Bool)
    (upstreams : List String) : List AttemptResult :=
  (spawnAll tlsVerify { upstreams := upstreams, query := req } upstreams).1.map net

/-! ### DoH adapter (`queryDoH`) -/

/-- An HTTP response as `queryDoH` sees it: status code and (readable)
body bytes. -/
structure HTTPResponse where
  status : Nat
  body : List Nat
  deriving Repr, DecidableEq

/-- `http.StatusOK`. -/
def StatusOK : Nat := 200

/-- `upstream.Client.queryDoH`, embedded over oracles for the external
calls it makes: `packed` is the outcome of `req.Pack()`, `doResult` the
outcome of `client.Do(httpReq)`, `readBody` the outcome of
`io.ReadAll(resp.Body)` on the delivered body, and `unpack` the outcome
of `msg.Unpack(body)`.  The status check runs before the body is read or
parsed, exactly as in the source. -/
def queryDoH (packed : Option (List Nat))
    (doResult : Except String HTTPResponse)
    (readBody : List Nat → Except String (List Nat))
    (unpack : List Nat → Option DnsMsg) : Except UpstreamError DnsMsg :=
  match packed with
  | none => .error .packFailure
  | some _ =>
    match doResult with
    | .error e => .error (.transportFailure e)
    | .ok resp =>
      if resp.status ≠ StatusOK then
        .error (.statusFailure resp.status)
      else
        match readBody resp.body with
        | .error e => .error (.readFailure e)
        | .ok body =>
          match unpack body with
          | none => .error .unpackFailure
          | some msg => .ok msg

/-! ### Device index (`device.Manager`) -/

/-- `device.Device`: the resolved per-device policy. -/
structure Device where
  name : String
  upstreams : List String
  tlsVerify : Bool
  deriving Repr, DecidableEq

/-- `config.Device`: one device entry of the configuration file.
`tlsVerify` is the optional `tls-verify` field (`*bool` in Go,
`nil` when absent). -/
structure ConfigDevice where
  name : String
  ips : List String
  upstreams : List String
  tlsVerify : Option Bool
  deriving Repr, DecidableEq

/-- `config.Config`: top-level upstream list and device list. -/
structure Config where
  upstreams : List String
  devices : List ConfigDevice
  deriving Repr, DecidableEq

/-- `device.Manager`: the `ipMap` Go map, modelled as a function from
canonical IP strings to the stored device. -/
def Manager : Type := String → Option Device

/-- The body of `NewManager`'s device loop before the IP loop: resolve
the default-true TLS-verify flag (`tlsVerify := true; if d.TLSVerify !=
nil { tlsVerify = *d.TLSVerify }`) and build the `Device` value. -/
def mkDevice (d : ConfigDevice) : Device :=
  { name := d.name
    upstreams := d.upstreams
    tlsVerify :=
      match d.tlsVerify with
      | none => true
      | some b => b }

/-- The IP loop of `NewManager` for one device: for each IP string, if
`net.ParseIP` succeeds, store the device under the canonical form
(`m.ipMap[ip.String()] = dev`); parse failures are skipped.  `parse`
abstracts `net.ParseIP` composed with `net.IP.String` (`none` on parse
failure). -/
def insertDeviceIPs (parse : String → Option String) (dev : Device)
    (m : Manager) (ips : List String) : Manager :=
  ips.foldl
    (fun m ipStr =>
      match parse ipStr with
      | some canon => fun k => if k = canon then some dev else m k
      | none => m)
    m

/-- `device.NewManager`: fold over the configured devices in order,
later devices overwriting earlier mappings for the same canonical IP. -/
def NewManager (parse : String → Option String) (cfg : Config) : Manager :=
  cfg.devices.foldl
    (fun m d => insertDeviceIPs parse (mkDevice d) m d.ips)
    (fun _ => none)

/-- `device.Manager.Get`: `nil` client IP gives `nil`; otherwise a map
lookup under the canonical string form.  The argument is the client IP
already in canonical string form (`none` for a `nil` `net.IP`). -/
def Manager.Get (m : Manager) (ip : Option String) : Option Device :=
  match ip with
  | none => none
  | some canon => m canon

/-! ### Request router (`server.Server.ServeDNS`) -/

/-- `dns.RcodeServerFailure`. -/
def RcodeServerFailure : Nat := 2

/-- `miekg/dns` `(*Msg).SetRcode(request, rcode)`: `SetReply` copies the
request's `Id` and sets the `Response` bit, then the `Rcode` is set. -/
def setRcode (request : DnsMsg) (rcode : Nat) : DnsMsg :=
  { id := request.id, response := true, rcode := rcode }

/-- What `ServeDNS` did with one inbound query. -/
inductive ServeOutcome where
  /-- Client address unresolvable: logged and dropped, no reply. -/
  | dropped
  /-- The exchange never returned within the modelled trace. -/
  | blocked
  /-- A message was written to the client (`w.WriteMsg`). -/
  | wrote (msg : DnsMsg)
  deriving Repr

/-- The "Determine Upstreams" block of `ServeDNS`: a matching device
supplies its upstream list and TLS flag, otherwise the configuration's
global `upstreams` with `tlsVerify = true`. -/
def routePolicy (m : Manager) (cfg : Config) (clientIP : Option String) :
    List String × Bool :=
  match m.Get clientIP with
  | some dev => (dev.upstreams, dev.tlsVerify)
  | none => (cfg.upstreams, true)

/-- `server.Server.ServeDNS`, embedded over: `splitHost` (the host part
of `net.SplitHostPort(w.RemoteAddr().String())`, `none` on error),
`parse` (canonicalizing IP parse, as in the device index), and the event
trace driving the inner `Exchange` call.  Returns the outcome together
with the `(upstreams, tlsVerify)` pair passed to `Exchange` (`none` when
the query was dropped before the call). -/
def ServeDNS (splitHost : String → Option String)
    (parse : String → Option String) (m : Manager) (cfg : Config)
    (trace : List ExchangeEvent)
    (remoteAddr : String) (r : DnsMsg) :
    ServeOutcome × Option (List String × Bool) :=
  match splitHost remoteAddr with
  | none => (.dropped, none)
  | some ipStr =>
    match Exchange r (routePolicy m cfg (parse ipStr)).1
        (routePolicy m cfg (parse ipStr)).2 trace with
    | none => (.blocked, some (routePolicy m cfg (parse ipStr)))
    | some ret =>
      match ret.outcome with
      | .error _ =>
        (.wrote (setRcode r RcodeServerFailure), some (routePolicy m cfg (parse ipStr)))
      | .ok resp =>
        (.wrote { resp with id := r.id }, some (routePolicy m cfg (parse ipStr)))

/-! ### Auxiliary definitions used by the statements -/

/-- The last error observed in a list of delivered attempt results: the
`err` field of the latest delivery carrying a non-nil error, `none` when
no delivery carried one. -/
def lastObservedError : List AttemptResult → Option UpstreamError
  | [] => none
  | r :: rs =>
    match lastObservedError rs with
    | some e => some e
    | none => r.err

/-- `Exchange`'s failure value for a final `lastErr`: the last error if
one was set, otherwise the generic `"all upstreams failed"` error. -/
def finalFailure : Option UpstreamError → ExchangeError
  | some e => .attemptError e
  | none => .allUpstreamsFailed

/-- A device declares canonical IP `k` when one of its configured IP
strings parses to `k`. -/
def declaresIP (parse : String → Option String) (k : String) (d : ConfigDevice) : Bool :=
  d.ips.any fun s => parse s == some k

/-! ### Concrete fixtures used by the witnesses -/

/-- A sample DNS query/response message. -/
def sampleMsg : DnsMsg := { id := 7, rcode := 0, response := true }

/-- A failed attempt result. -/
def sampleFail : AttemptResult :=
  { msg := none, err := some (.transportFailure "refused") }

/-- A successful attempt result. -/
def sampleOk : AttemptResult := { msg := some sampleMsg, err := none }

/-- A network where only classic `9.9.9.9:53` answers successfully. -/
def sampleNet : Net :=
  fun c => if c = AttemptCall.classic "9.9.9.9:53" then sampleOk else sampleFail

/-- A canonicalization that accepts every string unchanged. -/
def idParse : String → Option String := fun s => some s

/-- A sample device configuration entry with an explicit TLS flag. -/
def sampleDeviceCfg : ConfigDevice :=
  { name := "test", ips := ["192.168.0.23"], upstreams := ["1.0.0.2"],
    tlsVerify := some false }

/-- A sample configuration. -/
def sampleCfg : Config :=
  { upstreams := ["9.9.9.9"], devices := [sampleDeviceCfg] }

/-! ### Helper lemmas -/

theorem spawnOne_eq (tv : Bool) (st : CallerState) (u : String) :
    spawnOne tv st u =
      (if isDoH u then AttemptCall.doh u tv
       else AttemptCall.classic (if u.data.contains ':' then u else u ++ ":53"), st) := by
  unfold spawnOne
  by_cases h : isDoH u <;> simp [h]

theorem spawnOne_snd (tv : Bool) (st : CallerState) (u : String) :
    (spawnOne tv st u).2 = st := by
  rw [spawnOne_eq]

theorem spawnOne_classic_noport (tv : Bool) (st : CallerState) (u : String)
    (hdoh : isDoH u = false) (hcolon : u.data.contains ':' = false) :
    (spawnOne tv st u).1 = AttemptCall.classic (u ++ ":53") := by
  rw [spawnOne_eq, hdoh, hcolon]
  rfl

theorem spawnAll_cons (tv : Bool) (st : CallerState) (u : String) (us : List String) :
    spawnAll tv st (u :: us) =
      ((spawnOne tv st u).1 :: (spawnAll tv (spawnOne tv st u).2 us).1,
        (spawnAll tv (spawnOne tv st u).2 us).2) := rfl

theorem spawnAll_eq (tv : Bool) (st : CallerState) (us : List String) :
    spawnAll tv st us = (us.map fun u => (spawnOne tv st u).1, st) := by
  induction us generalizing st with
  | nil => rfl
  | cons u us ih => rw [spawnAll_cons, spawnOne_snd, ih, List.map_cons]

theorem Exchange_nil_eq (req : DnsMsg) (tv : Bool) (trace : List ExchangeEvent) :
    Exchange req [] tv trace =
      some { outcome := Except.error ExchangeError.noUpstreams,
             cancelSignaled := false, attemptsMade := [],
             upstreamsAfter := [], queryAfter := req } := rfl

theorem Exchange_ne_nil (req : DnsMsg) (upstreams : List String) (tv : Bool)
    (trace : List ExchangeEvent) (h : upstreams ≠ []) :
    Exchange req upstreams tv trace =
      (exchangeLoop trace none).map fun o =>
        { outcome := o, cancelSignaled := true,
          attemptsMade :=
            upstreams.map fun u => (spawnOne tv { upstreams := upstreams, query := req } u).1,
          upstreamsAfter := upstreams, queryAfter := req } := by
  unfold Exchange
  rw [if_neg (by simpa [List.length_eq_zero] using h)]
  simp [spawnAll_eq]

theorem exchangeLoop_success (rest : List ExchangeEvent) (r : AttemptResult)
    (m : DnsMsg) (hmsg : r.msg = some m) (herr : r.err = none) :
    ∀ (pre : List ExchangeEvent) (lastErr : Option UpstreamError),
      (∀ e ∈ pre, ∃ r', e = ExchangeEvent.deliver r' ∧ isSuccess r' = false) →
      exchangeLoop (pre ++ ExchangeEvent.deliver r :: rest) lastErr = some (.ok m) := by
  intro pre
  induction pre with
  | nil =>
    intro lastErr _
    rcases r with ⟨rmsg, rerr⟩
    simp only at hmsg herr
    subst hmsg; subst herr
    rfl
  | cons e pre ih =>
    intro lastErr hpre
    obtain ⟨r', he, hfail⟩ := hpre e (List.mem_cons_self e pre)
    subst he
    have htail : ∀ e ∈ pre, ∃ r', e = ExchangeEvent.deliver r' ∧ isSuccess r' = false :=
      fun e he => hpre e (List.mem_cons_of_mem _ he)
    rcases r' with ⟨msg', err'⟩
    cases msg' with
    | none =>
      cases err' with
      | none => exact ih _ htail
      | some e' => exact ih _ htail
    | some m' =>
      cases err' with
      | none => simp [isSuccess] at hfail
      | some e' => exact ih _ htail

theorem exchangeLoop_deliver_fail (r : AttemptResult) (rest : List ExchangeEvent)
    (lastErr : Option UpstreamError) (h : isSuccess r = false) :
    exchangeLoop (ExchangeEvent.deliver r :: rest) lastErr =
      exchangeLoop rest (if r.err.isSome then r.err else lastErr) := by
  rcases r with ⟨msg', err'⟩
  cases msg' <;> cases err' <;> first | rfl | simp [isSuccess] at h

theorem exchangeLoop_allFail :
    ∀ (results : List AttemptResult) (lastErr : Option UpstreamError),
      (∀ r ∈ results, isSuccess r = false) →
      exchangeLoop (results.map ExchangeEvent.deliver ++ [ExchangeEvent.chanClosed]) lastErr =
        some (.error (finalFailure
          (match lastObservedError results with
           | some e => some e
           | none => lastErr))) := by
  intro results
  induction results with
  | nil =>
    intro lastErr _
    cases lastErr <;> rfl
  | cons r rs ih =>
    intro lastErr hfail
    have hr := hfail r (List.mem_cons_self r rs)
    have htail : ∀ x ∈ rs, isSuccess x = false :=
      fun x hmem => hfail x (List.mem_cons_of_mem _ hmem)
    rw [List.map_cons, List.cons_append, exchangeLoop_deliver_fail r _ _ hr,
      ih _ htail]
    rcases r with ⟨msg', err'⟩
    cases err' <;> cases hl : lastObservedError rs <;>
      simp [lastObservedError, hl]

theorem insertDeviceIPs_apply (parse : String → Option String) (dev : Device)
    (k : String) :
    ∀ (ips : List String) (m : Manager),
      insertDeviceIPs parse dev m ips k =
        if ips.any (fun s => parse s == some k) then some dev else m k := by
  intro ips
  induction ips with
  | nil => intro m; rfl
  | cons s ips ih =>
    intro m
    show insertDeviceIPs parse dev
        (match parse s with
         | some canon => fun k' => if k' = canon then some dev else m k'
         | none => m) ips k = _
    rw [ih]
    cases hp : parse s with
    | none => simp [List.any_cons, hp]
    | some canon =>
      by_cases hk : canon = k
      · subst hk
        simp [List.any_cons, hp]
      · have hks : ¬ (k = canon) := fun h => hk h.symm
        simp [List.any_cons, hp, hks, hk]

theorem foldDevices_apply (parse : String → Option String) (k : String) :
    ∀ (ds : List ConfigDevice) (m0 : Manager),
      (ds.foldl (fun m d => insertDeviceIPs parse (mkDevice d) m d.ips) m0) k =
        match ds.reverse.find? (declaresIP parse k) with
        | some d => some (mkDevice d)
        | none => m0 k := by
  intro ds
  induction ds with
  | nil => intro m0; rfl
  | cons d ds ih =>
    intro m0
    rw [List.foldl_cons, ih, List.reverse_cons, List.find?_append]
    cases hf : ds.reverse.find? (declaresIP parse k) with
    | some d' => rfl
    | none =>
      rw [insertDeviceIPs_apply]
      cases hd : d.ips.any fun s => parse s == some k with
      | true => simp [Option.or, List.find?_cons, declaresIP, hd]
      | false => simp [Option.or, List.find?_cons, declaresIP, hd]

theorem newManager_apply (parse : String → Option String) (cfg : Config)
    (k : String) :
    NewManager parse cfg k =
      (cfg.devices.reverse.find? (declaresIP parse k)).map mkDevice := by
  rw [NewManager, foldDevices_apply]
  cases cfg.devices.reverse.find? (declaresIP parse k) <;> rfl

/-! ### Claims -/

/-- C2: For every call to `Exchange` with an empty upstream list,
`Exchange` fails immediately with the `NoUpstreams` error, performs zero
network calls (no adapter invocation is spawned), and never creates the
per-call cancellation context. -/
theorem exchange_empty_upstreams_no_attempts (req : DnsMsg) (tlsVerify : Bool)
    (trace : List ExchangeEvent) :
    Exchange req [] tlsVerify trace =
      some { outcome := .error .noUpstreams, cancelSignaled := false,
             attemptsMade := [], upstreamsAfter := [], queryAfter := req } := rfl

/-- C1: For every `Exchange` call with a non-empty upstream list in which
some upstream attempt succeeds — the receiving loop observes, after any
number of failed deliveries, the delivery of an attempt result with no
error and a message — `Exchange` returns exactly that first successful
response, and on return the per-call cancellation is signalled to all
sibling attempts (`cancelSignaled = true`, the deferred `cancel()`). -/
theorem exchange_returns_first_success
    (net : Net) (req : DnsMsg) (upstreams : List String) (tlsVerify : Bool)
    (pre rest : List ExchangeEvent) (r : AttemptResult) (m : DnsMsg)
    (hne : upstreams ≠ [])
    (hattempt : r ∈ attemptResults net req tlsVerify upstreams)
    (hmsg : r.msg = some m) (herr : r.err = none)
    (hpre : ∀ e ∈ pre, ∃ r', e = ExchangeEvent.deliver r' ∧ isSuccess r' = false) :
    Exchange req upstreams tlsVerify (pre ++ ExchangeEvent.deliver r :: rest) =
      some { outcome := .ok m, cancelSignaled := true,
             attemptsMade :=
               upstreams.map fun u =>
                 (spawnOne tlsVerify { upstreams := upstreams, query := req } u).1,
             upstreamsAfter := upstreams, queryAfter := req } := by
  rw [Exchange_ne_nil req upstreams tlsVerify _ hne,
    exchangeLoop_success rest r m hmsg herr pre none hpre]
  rfl

theorem exchange_returns_first_success_witness :
    (["8.8.8.8", "9.9.9.9"] : List String) ≠ [] ∧
    sampleOk ∈ attemptResults sampleNet sampleMsg true ["8.8.8.8", "9.9.9.9"] ∧
    sampleOk.msg = some sampleMsg ∧ sampleOk.err = none ∧
    Exchange sampleMsg ["8.8.8.8", "9.9.9.9"] true
        ([ExchangeEvent.deliver sampleFail] ++
          ExchangeEvent.deliver sampleOk :: [ExchangeEvent.chanClosed]) =
      some { outcome := .ok sampleMsg, cancelSignaled := true,
             attemptsMade :=
               [AttemptCall.classic "8.8.8.8:53", AttemptCall.classic "9.9.9.9:53"],
             upstreamsAfter := ["8.8.8.8", "9.9.9.9"], queryAfter := sampleMsg } := by
  refine ⟨by decide, by decide, rfl, rfl, ?_⟩
  have h := exchange_returns_first_success sampleNet sampleMsg
    ["8.8.8.8", "9.9.9.9"] true [ExchangeEvent.deliver sampleFail]
    [ExchangeEvent.chanClosed] sampleOk sampleMsg (by decide) (by decide) rfl rfl
    (by
      intro e he
      rw [List.mem_singleton] at he
      exact ⟨sampleFail, he, rfl⟩)
  exact h.trans rfl

/-- C3: For every `Exchange` call with a non-empty upstream list in which
every attempt fails (the trace delivers all attempt results, each of
which is not a success, and then the channel closes), `Exchange` returns
no message and fails with the last error observed among the deliveries,
or the generic "all upstreams failed" error when no attempt set an error
explicitly. -/
theorem exchange_all_fail_returns_last_error
    (net : Net) (req : DnsMsg) (upstreams : List String) (tlsVerify : Bool)
    (results : List AttemptResult)
    (hne : upstreams ≠ [])
    (hperm : results.Perm (attemptResults net req tlsVerify upstreams))
    (hfail : ∀ r ∈ attemptResults net req tlsVerify upstreams, isSuccess r = false) :
    Exchange req upstreams tlsVerify
        (results.map ExchangeEvent.deliver ++ [ExchangeEvent.chanClosed]) =
      some { outcome := .error (finalFailure (lastObservedError results)),
             cancelSignaled := true,
             attemptsMade :=
               upstreams.map fun u =>
                 (spawnOne tlsVerify { upstreams := upstreams, query := req } u).1,
             upstreamsAfter := upstreams, queryAfter := req } := by
  have hfail' : ∀ r ∈ results, isSuccess r = false :=
    fun r hr => hfail r (hperm.mem_iff.mp hr)
  rw [Exchange_ne_nil req upstreams tlsVerify _ hne,
    exchangeLoop_allFail results none hfail']
  cases hl : lastObservedError results <;> simp [hl]

theorem exchange_all_fail_returns_last_error_witness :
    (["8.8.8.8"] : List String) ≠ [] ∧
    List.Perm [sampleFail] (attemptResults sampleNet sampleMsg true ["8.8.8.8"]) ∧
    (∀ r ∈ attemptResults sampleNet sampleMsg true ["8.8.8.8"], isSuccess r = false) ∧
    Exchange sampleMsg ["8.8.8.8"] true
        ([sampleFail].map ExchangeEvent.deliver ++ [ExchangeEvent.chanClosed]) =
      some { outcome := .error (.attemptError (.transportFailure "refused")),
             cancelSignaled := true,
             attemptsMade := [AttemptCall.classic "8.8.8.8:53"],
             upstreamsAfter := ["8.8.8.8"], queryAfter := sampleMsg } := by
  refine ⟨by decide, by decide, by decide, ?_⟩
  have h := exchange_all_fail_returns_last_error sampleNet sampleMsg
    ["8.8.8.8"] true [sampleFail] (by decide) (by decide) (by decide)
  exact h.trans rfl

/-- C6: For every upstream identifier that is not an `http://` or
`https://` URL and contains no `':'` (hence carries no port), an
`Exchange` call whose upstream list contains that identifier invokes the
classic adapter at the identifier with `":53"` appended. -/
theorem exchange_appends_default_port
    (req : DnsMsg) (upstreams : List String) (tlsVerify : Bool)
    (trace : List ExchangeEvent) (ret : ExchangeReturn) (u : String)
    (hdoh : isDoH u = false) (hcolon : u.data.contains ':' = false)
    (hmem : u ∈ upstreams)
    (hret : Exchange req upstreams tlsVerify trace = some ret) :
    AttemptCall.classic (u ++ ":53") ∈ ret.attemptsMade := by
  have hne : upstreams ≠ [] := by
    rintro rfl
    simp at hmem
  rw [Exchange_ne_nil req upstreams tlsVerify trace hne] at hret
  obtain ⟨o, ho, rfl⟩ := Option.map_eq_some'.mp hret
  exact List.mem_map.mpr ⟨u, hmem, spawnOne_classic_noport tlsVerify _ u hdoh hcolon⟩

theorem exchange_appends_default_port_witness :
    isDoH "9.9.9.9" = false ∧ "9.9.9.9".data.contains ':' = false ∧
    "9.9.9.9" ∈ (["9.9.9.9"] : List String) ∧
    Exchange sampleMsg ["9.9.9.9"] true [ExchangeEvent.chanClosed] =
      some { outcome := .error .allUpstreamsFailed, cancelSignaled := true,
             attemptsMade := [AttemptCall.classic "9.9.9.9:53"],
             upstreamsAfter := ["9.9.9.9"], queryAfter := sampleMsg } ∧
    AttemptCall.classic ("9.9.9.9" ++ ":53") ∈
      [AttemptCall.classic "9.9.9.9:53"] := by
  refine ⟨by decide, by decide, by decide, rfl, ?_⟩
  exact exchange_appends_default_port sampleMsg ["9.9.9.9"] true
    [ExchangeEvent.chanClosed]
    { outcome := .error .allUpstreamsFailed, cancelSignaled := true,
      attemptsMade := [AttemptCall.classic "9.9.9.9:53"],
      upstreamsAfter := ["9.9.9.9"], queryAfter := sampleMsg }
    "9.9.9.9" (by decide) (by decide) (by decide) rfl

/-- C9: `Exchange` does not mutate the caller's inputs: whenever the call
returns, the upstream-slice contents and the query message, threaded
through the engine as explicit caller state, are exactly what the caller
passed in — the `":53"` normalization only affects the loop-local copy of
each identifier. -/
theorem exchange_preserves_inputs (req : DnsMsg) (upstreams : List String)
    (tlsVerify : Bool) (trace : List ExchangeEvent) (ret : ExchangeReturn)
    (h : Exchange req upstreams tlsVerify trace = some ret) :
    ret.upstreamsAfter = upstreams ∧ ret.queryAfter = req := by
  by_cases hne : upstreams = []
  · subst hne
    rw [Exchange_nil_eq] at h
    obtain rfl := Option.some.inj h
    exact ⟨rfl, rfl⟩
  · rw [Exchange_ne_nil req upstreams tlsVerify trace hne] at h
    obtain ⟨o, ho, rfl⟩ := Option.map_eq_some'.mp h
    exact ⟨rfl, rfl⟩

/-- C5: For every configuration, Device Index lookup by a client IP
returns the policy of the most-recently-configured device among the
devices that declare that IP — the first match in the reversed
configuration order, i.e. last write wins for duplicate canonical IP
strings — and returns `none` for any IP absent from the
configuration (no device declares it, so the `find?` is `none`). -/
theorem device_index_last_write_wins (parse : String → Option String)
    (cfg : Config) (k : String) :
    Manager.Get (NewManager parse cfg) (some k) =
      (cfg.devices.reverse.find? (declaresIP parse k)).map mkDevice := by
  show NewManager parse cfg k = _
  exact newManager_apply parse cfg k

/-- C7: Every policy stored in the Device Index comes from a configured
device, with the TLS-verify flag resolved at construction time: `true`
when the optional `tls-verify` setting is absent, the configured value
otherwise. -/
theorem device_index_tls_verify_resolution
    (parse : String → Option String) (cfg : Config) (k : String) (dev : Device)
    (h : NewManager parse cfg k = some dev) :
    ∃ d ∈ cfg.devices, dev = mkDevice d ∧ dev.tlsVerify = d.tlsVerify.getD true := by
  rw [newManager_apply] at h
  obtain ⟨d, hd, rfl⟩ := Option.map_eq_some'.mp h
  refine ⟨d, ?_, rfl, ?_⟩
  · exact List.mem_reverse.mp (List.mem_of_find?_eq_some hd)
  · rcases d with ⟨n, ips, ups, tv⟩
    cases tv <;> rfl

theorem device_index_tls_verify_resolution_witness :
    NewManager idParse sampleCfg "192.168.0.23" =
      some { name := "test", upstreams := ["1.0.0.2"], tlsVerify := false } ∧
    ∃ d ∈ sampleCfg.devices,
      ({ name := "test", upstreams := ["1.0.0.2"], tlsVerify := false } : Device) =
        mkDevice d ∧
      ({ name := "test", upstreams := ["1.0.0.2"], tlsVerify := false } : Device).tlsVerify =
        d.tlsVerify.getD true := by
  refine ⟨rfl, ?_⟩
  exact device_index_tls_verify_resolution idParse sampleCfg "192.168.0.23" _ rfl

/-- C8: For every DoH adapter call in which the HTTPS endpoint returns an
HTTP status other than 200, `queryDoH` fails with the status-failure
error carrying that status and returns no DNS message; the response body
is never read or parsed as a success (the result is the same for every
possible body, body reader and parser). -/
theorem doh_non_200_status_failure (packed : List Nat) (resp : HTTPResponse)
    (readBody : List Nat → Except String (List Nat))
    (unpack : List Nat → Option DnsMsg)
    (hstatus : resp.status ≠ StatusOK) :
    queryDoH (some packed) (.ok resp) readBody unpack =
      .error (.statusFailure resp.status) := by
  simp only [queryDoH]
  rw [if_pos hstatus]

theorem doh_non_200_status_failure_witness :
    (404 : Nat) ≠ StatusOK ∧
    queryDoH (some [0]) (.ok { status := 404, body := [1, 2] })
        (fun b => .ok b) (fun _ => some sampleMsg) =
      .error (.statusFailure 404) := by
  refine ⟨by decide, ?_⟩
  exact doh_non_200_status_failure [0] { status := 404, body := [1, 2] }
    (fun b => .ok b) (fun _ => some sampleMsg) (by decide)

/-- C4: For every inbound query the Router answers — both when the
exchange succeeds and when it fails and a server-failure response is
synthesized — the transaction identifier of the message written to the
client equals the transaction identifier of the inbound query. -/
theorem serve_dns_preserves_transaction_id
    (splitHost parse : String → Option String) (m : Manager) (cfg : Config)
    (trace : List ExchangeEvent) (remoteAddr : String) (r msg : DnsMsg)
    (args : Option (List String × Bool))
    (h : ServeDNS splitHost parse m cfg trace remoteAddr r = (.wrote msg, args)) :
    msg.id = r.id := by
  unfold ServeDNS at h
  split at h
  · exact absurd h (by simp)
  · split at h
    · exact absurd h (by simp)
    · split at h
      all_goals
        simp only [Prod.mk.injEq, ServeOutcome.wrote.injEq] at h
        obtain ⟨h1, -⟩ := h
        subst h1
        rfl

theorem serve_dns_preserves_transaction_id_witness :
    ServeDNS (fun _ => some "10.0.0.9") idParse (fun _ => none) sampleCfg
        [ExchangeEvent.chanClosed] "addr" sampleMsg =
      (.wrote { id := 7, rcode := 2, response := true },
       some (["9.9.9.9"], true)) ∧
    ({ id := 7, rcode := 2, response := true } : DnsMsg).id = sampleMsg.id := by
  refine ⟨rfl, ?_⟩
  exact serve_dns_preserves_transaction_id (fun _ => some "10.0.0.9") idParse
    (fun _ => none) sampleCfg [ExchangeEvent.chanClosed] "addr" sampleMsg
    { id := 7, rcode := 2, response := true } (some (["9.9.9.9"], true)) rfl

/-- C10: For every inbound query whose remote address splits into host
and port but whose host is not a parsable IP address, the Router does
not drop the query: the Device Index lookup with a nil IP returns
`none`, the query is served with the GlobalPolicy upstream list and
`tlsVerify = true`, and (whenever the inner exchange returns) a response
is written to the client. -/
theorem router_unparsable_ip_uses_global_policy
    (splitHost parse : String → Option String) (m : Manager) (cfg : Config)
    (trace : List ExchangeEvent) (remoteAddr ipStr : String) (r : DnsMsg)
    (ret : ExchangeReturn)
    (hsplit : splitHost remoteAddr = some ipStr)
    (hparse : parse ipStr = none)
    (hex : Exchange r cfg.upstreams true trace = some ret) :
    Manager.Get m none = none ∧
    (ServeDNS splitHost parse m cfg trace remoteAddr r).2 =
      some (cfg.upstreams, true) ∧
    ∃ msg, (ServeDNS splitHost parse m cfg trace remoteAddr r).1 =
      ServeOutcome.wrote msg := by
  have hpol : routePolicy m cfg (parse ipStr) = (cfg.upstreams, true) := by
    rw [hparse]
    rfl
  have hserve : ServeDNS splitHost parse m cfg trace remoteAddr r =
      match ret.outcome with
      | .error _ =>
        (.wrote (setRcode r RcodeServerFailure), some (cfg.upstreams, true))
      | .ok resp =>
        (.wrote { resp with id := r.id }, some (cfg.upstreams, true)) := by
    unfold ServeDNS
    simp only [hsplit, hpol, hex]
  refine ⟨rfl, ?_, ?_⟩
  · rw [hserve]
    cases ret.outcome <;> rfl
  · rw [hserve]
    cases ret.outcome with
    | error e => exact ⟨_, rfl⟩
    | ok resp => exact ⟨_, rfl⟩

theorem router_unparsable_ip_uses_global_policy_witness :
    (fun _ : String => some "host-zz") "addr" = some "host-zz" ∧
    (fun _ : String => (none : Option String)) "host-zz" = none ∧
    Exchange sampleMsg sampleCfg.upstreams true [ExchangeEvent.chanClosed] =
      some { outcome := .error .allUpstreamsFailed, cancelSignaled := true,
             attemptsMade := [AttemptCall.classic "9.9.9.9:53"],
             upstreamsAfter := ["9.9.9.9"], queryAfter := sampleMsg } ∧
    (Manager.Get (NewManager idParse sampleCfg) none = none ∧
     (ServeDNS (fun _ => some "host-zz") (fun _ => none)
        (NewManager idParse sampleCfg) sampleCfg [ExchangeEvent.chanClosed]
        "addr" sampleMsg).2 = some (sampleCfg.upstreams, true) ∧
     ∃ msg, (ServeDNS (fun _ => some "host-zz") (fun _ => none)
        (NewManager idParse sampleCfg) sampleCfg [ExchangeEvent.chanClosed]
        "addr" sampleMsg).1 = ServeOutcome.wrote msg) := by
  refine ⟨rfl, rfl, rfl, ?_⟩
  exact router_unparsable_ip_uses_global_policy (fun _ => some "host-zz")
    (fun _ => none) (NewManager idParse sampleCfg) sampleCfg
    [ExchangeEvent.chanClosed] "addr" "host-zz" sampleMsg
    { outcome := .error .allUpstreamsFailed, cancelSignaled := true,
      attemptsMade := [AttemptCall.classic "9.9.9.9:53"],
      upstreamsAfter := ["9.9.9.9"], queryAfter := sampleMsg }
    rfl rfl rfl

theorem exchange_preserves_inputs_witness :
    Exchange sampleMsg ["9.9.9.9"] true [ExchangeEvent.chanClosed] =
      some { outcome := .error .allUpstreamsFailed, cancelSignaled := true,
             attemptsMade := [AttemptCall.classic "9.9.9.9:53"],
             upstreamsAfter := ["9.9.9.9"], queryAfter := sampleMsg } ∧
    (["9.9.9.9"] : List String) = ["9.9.9.9"] ∧ sampleMsg = sampleMsg := by
  refine ⟨rfl, ?_⟩
  exact exchange_preserves_inputs sampleMsg ["9.9.9.9"] true
    [ExchangeEvent.chanClosed] _ rfl

end DNS300
